import Mathlib

/-!
Verification of the cosmos-genesis Python SDK against its design spec.

We shallowly embed the SDK's operative code in Lean:
* the Python string primitives used by `CosmosClient.query_galaxy`
  (`str.upper`, substring containment via `in`, `str.replace` with
  count 1 and unbounded count);
* the SQL rewriting of `CosmosClient.query_galaxy` (client.py 109-129);
* the submit/poll/fetch loop of `CosmosClient._execute_query`
  (client.py 206-231);
* the `QueryBuilder` (query.py);
* the `CosmosClient.__init__` credential check (client.py 44-56).
-/

namespace Cosmos

/-! ## Python string primitives on `List Char` -/

/-- Python `str.upper()` restricted to ASCII input (all SQL text in this
SDK is ASCII). -/
def pyUpperL (s : List Char) : List Char := s.map Char.toUpper

/-- Python `pat in s` substring test: does `pat` occur contiguously in `s`?
Empty `pat` occurs in every string, as in Python. -/
def containsSubL (s pat : List Char) : Bool :=
  match s with
  | [] => pat.isEmpty
  | _ :: rest => pat.isPrefixOf s || containsSubL rest pat

/-- Python `s.replace(pat, rep, 1)`: replace the leftmost occurrence of
`pat` (nonempty in every use below) by `rep`; return `s` unchanged when
`pat` does not occur. -/
def replaceFirstL (s pat rep : List Char) : List Char :=
  match s with
  | [] => []
  | c :: rest =>
    if !pat.isEmpty && pat.isPrefixOf (c :: rest) then
      rep ++ (c :: rest).drop pat.length
    else
      c :: replaceFirstL rest pat rep

/-- One left-to-right scan of Python `s.replace(pat, rep)` (replace every
non-overlapping occurrence), driven by a step budget; each step consumes
at least one character of `s`, so a budget of `s.length` processes all
of `s` (see `replaceAllL`). -/
def replaceAllFuel : Nat → List Char → List Char → List Char → List Char
  | 0, s, _, _ => s
  | fuel + 1, s, pat, rep =>
    match s with
    | [] => []
    | c :: rest =>
      if !pat.isEmpty && pat.isPrefixOf (c :: rest) then
        rep ++ replaceAllFuel fuel ((c :: rest).drop pat.length) pat rep
      else
        c :: replaceAllFuel fuel rest pat rep

/-- Python `s.replace(pat, rep)` with no count: every non-overlapping
occurrence, scanning left to right. -/
def replaceAllL (s pat rep : List Char) : List Char :=
  replaceAllFuel s.length s pat rep

/-- Number of non-overlapping occurrences of `pat` in `s`, counted by the
same left-to-right scan `replaceAllFuel` performs. -/
def countSubFuel : Nat → List Char → List Char → Nat
  | 0, _, _ => 0
  | fuel + 1, s, pat =>
    match s with
    | [] => 0
    | c :: rest =>
      if !pat.isEmpty && pat.isPrefixOf (c :: rest) then
        1 + countSubFuel fuel ((c :: rest).drop pat.length) pat
      else
        countSubFuel fuel rest pat

/-! ## `String`-level wrappers -/

def pyUpper (s : String) : String := String.mk (pyUpperL s.toList)

def pyContains (s pat : String) : Bool := containsSubL s.toList pat.toList

def pyReplaceFirst (s pat rep : String) : String :=
  String.mk (replaceFirstL s.toList pat.toList rep.toList)

def pyReplaceAll (s pat rep : String) : String :=
  String.mk (replaceAllL s.toList pat.toList rep.toList)

/-- Non-overlapping occurrence count of `pat` in `s`. -/
def countOccs (s pat : String) : Nat :=
  countSubFuel s.toList.length s.toList pat.toList

/-! ## The SQL rewriting of `CosmosClient.query_galaxy` (client.py 109-129) -/

/-- The partition-predicate insertion step, client.py lines 110-122:
if the upper-cased query contains `"WHERE"`, replace the first (literal,
case-sensitive) `"WHERE"`; else scan `["LIMIT", "ORDER BY", "GROUP BY"]`
in order and on the first keyword contained in the upper-cased query
replace its first literal occurrence, breaking out of the loop; else
append `" WHERE galaxy_id = '<g>'"`. -/
def injectLoop (galaxy_id query : String) : List String → String
  | [] => query ++ " WHERE galaxy_id = '" ++ galaxy_id ++ "'"
  | kw :: rest =>
    if pyContains (pyUpper query) kw then
      pyReplaceFirst query kw ("WHERE galaxy_id = '" ++ galaxy_id ++ "' " ++ kw)
    else
      injectLoop galaxy_id query rest

def rewriteStep1 (galaxy_id query : String) : String :=
  if pyContains (pyUpper query) "WHERE" then
    pyReplaceFirst query "WHERE" ("WHERE galaxy_id = '" ++ galaxy_id ++ "' AND")
  else
    injectLoop galaxy_id query ["LIMIT", "ORDER BY", "GROUP BY"]

/-- The full rewrite of `query_galaxy`, client.py lines 109-129: predicate
insertion followed by the `universe_time` step, which for positive time
replaces every occurrence of `galaxy_id = '<g>'` by itself extended with
`AND universe_time = <t>` (Python `str.replace` with no count). -/
def rewriteQuery (galaxy_id query : String) (universe_time : Int) : String :=
  let q1 := rewriteStep1 galaxy_id query
  if universe_time > 0 then
    pyReplaceAll q1 ("galaxy_id = '" ++ galaxy_id ++ "'")
      ("galaxy_id = '" ++ galaxy_id ++ "' AND universe_time = " ++ toString universe_time)
  else
    q1

/-! ## Error taxonomy (exceptions.py) -/

inductive CosmosError where
  | authenticationError (msg : String)
  | queryError (msg : String)
  | schemaNotFoundError (msg : String)
  deriving DecidableEq, Repr

/-! ## The poll loop of `CosmosClient._execute_query` (client.py 206-222)

One iteration of the `while True` loop issues one
`get_query_execution` status check; we model the sequence of remote
answers as a list of `PollResponse`s, each carrying the state string, the
optional `StateChangeReason`, and the elapsed wall-clock time
`time.time() - start_time` observed in that iteration. -/

structure PollResponse where
  state : String
  reason : Option String
  elapsed : Int
  deriving DecidableEq, Repr

inductive PollOutcome where
  /-- the loop `break`s and execution proceeds to fetching results -/
  | fetch
  /-- the loop raises this error -/
  | raised (e : CosmosError)
  /-- model artifact: the finite response list was exhausted with the
  loop still running (the real loop would issue another check) -/
  | exhausted
  deriving DecidableEq, Repr

/-- The loop body, client.py 207-222: check `SUCCEEDED`, then
`FAILED`/`CANCELLED` (reason defaulted to `"Unknown error"`), then the
timeout bound (strict comparison, checked after the state), else sleep
and poll again.  Returns the outcome together with the number of status
checks issued. -/
def pollLoop (timeout : Int) : List PollResponse → PollOutcome × Nat
  | [] => (.exhausted, 0)
  | r :: rest =>
    if r.state = "SUCCEEDED" then
      (.fetch, 1)
    else if r.state = "FAILED" ∨ r.state = "CANCELLED" then
      (.raised (.queryError ("Query failed: " ++ r.reason.getD "Unknown error")), 1)
    else if timeout < r.elapsed then
      (.raised (.queryError ("Query timeout after " ++ toString timeout ++ "s")), 1)
    else
      let (o, n) := pollLoop timeout rest
      (o, n + 1)

/-- A state string ending the poll loop. -/
def isTerminalState (s : String) : Bool :=
  s = "SUCCEEDED" || s = "FAILED" || s = "CANCELLED"

/-! ## The fetch loop of `CosmosClient._execute_query` (client.py 224-231) -/

/-- One cell of an Athena result row: the `Data` entry, whose
`VarCharValue` key may be absent (`col.get("VarCharValue")` then yields
`None`). -/
structure AthenaDatum where
  varCharValue : Option String
  deriving DecidableEq, Repr

/-- Decoding of one row, client.py 229: each cell becomes its
string-or-null `VarCharValue`. -/
def decodeRow (row : List AthenaDatum) : List (Option String) :=
  row.map AthenaDatum.varCharValue

/-- The paginated fetch, client.py 227-229: for each page in order, skip
the first row (`page["ResultSet"]["Rows"][1:]`) and append every
remaining decoded row to the accumulated results. -/
def fetchResults : List (List (List AthenaDatum)) → List (List (Option String))
  | [] => []
  | page :: rest => (page.drop 1).map decodeRow ++ fetchResults rest

/-! ## `QueryBuilder` (query.py) -/

structure QueryBuilder where
  _select_fields : List String
  _from_table : Option String
  _where_conditions : List String
  _order_by : Option String
  _limit : Option Int
  _offset : Option Int
  deriving DecidableEq, Repr

namespace QueryBuilder

/-- `QueryBuilder.__init__` (query.py 24-30). -/
def init : QueryBuilder :=
  { _select_fields := [], _from_table := none, _where_conditions := [],
    _order_by := none, _limit := none, _offset := none }

/-- `select(*fields)` (query.py 32-43): extends the field list. -/
def select (b : QueryBuilder) (fields : List String) : QueryBuilder :=
  { b with _select_fields := b._select_fields ++ fields }

/-- `from_table(table)` (query.py 45-56): overwrites the table. -/
def from_table (b : QueryBuilder) (table : String) : QueryBuilder :=
  { b with _from_table := some table }

/-- `where(condition)` (query.py 58-69); `where` is a Lean keyword, hence
the trailing underscore. -/
def where_ (b : QueryBuilder) (condition : String) : QueryBuilder :=
  { b with _where_conditions := b._where_conditions ++ [condition] }

/-- `order_by(field, direction="ASC")` (query.py 71-83): overwrites the
ordering clause with `f"{field} {direction}"`. -/
def order_by (b : QueryBuilder) (field : String) (direction : String := "ASC") :
    QueryBuilder :=
  { b with _order_by := some (field ++ " " ++ direction) }

/-- `limit(count)` (query.py 85-96). -/
def limit (b : QueryBuilder) (count : Int) : QueryBuilder :=
  { b with _limit := some count }

/-- `offset(count)` (query.py 98-109). -/
def offset (b : QueryBuilder) (count : Int) : QueryBuilder :=
  { b with _offset := some count }

/-- `build()` (query.py 111-148).  Python truthiness: the guards
`if not self._select_fields` and `if not self._from_table` treat the
empty list, `None` and the empty string as absent; `if self._order_by`
skips a falsy (empty) ordering string; `_limit`/`_offset` are compared
to `None` explicitly.  The parts are joined by `" ".join(query_parts)`. -/
def build (b : QueryBuilder) : Except String String :=
  if b._select_fields = [] then
    .error "SELECT fields required"
  else if b._from_table.getD "" = "" then
    .error "FROM table required"
  else
    let query_parts := ["SELECT " ++ String.intercalate ", " b._select_fields]
    let query_parts := query_parts ++ ["FROM " ++ b._from_table.getD ""]
    let query_parts := query_parts ++
      (if b._where_conditions ≠ [] then
        ["WHERE " ++ String.intercalate " AND " b._where_conditions] else [])
    let query_parts := query_parts ++
      (match b._order_by with
       | some o => if o = "" then [] else ["ORDER BY " ++ o]
       | none => [])
    let query_parts := query_parts ++
      (match b._limit with
       | some n => ["LIMIT " ++ toString n]
       | none => [])
    let query_parts := query_parts ++
      (match b._offset with
       | some n => ["OFFSET " ++ toString n]
       | none => [])
    .ok (String.intercalate " " query_parts)

/-- `build()` as a state-passing method call: the body of `build` only
reads `self` (query.py 111-148 assign no attribute), so the state after
the call is the state before it. -/
def buildS (b : QueryBuilder) : Except String String × QueryBuilder :=
  (b.build, b)

/-- `__str__` (query.py 150-152): delegates to `build()` (and hence
propagates its `ValueError`). -/
def str (b : QueryBuilder) : Except String String :=
  b.build

end QueryBuilder

/-! ## `CosmosClient.__init__` (client.py 28-59) -/

/-- The external AWS service clients created by the constructor. -/
inductive InitEffect where
  | createAthenaClient (region : String)
  | createS3Client (region : String)
  deriving DecidableEq, Repr

structure CosmosClient where
  api_key : String
  region : String
  timeout : Int
  database : String
  results_bucket : String
  deriving DecidableEq, Repr

/-- Python truthiness of an optional string: `None` and `""` are falsy. -/
def truthyOpt (s : Option String) : Bool :=
  s.getD "" ≠ ""

/-- `CosmosClient.__init__` (client.py 44-59): `api_key or
os.environ.get("COSMOS_API_KEY")`, raise `AuthenticationError` when the
result is falsy, and only afterwards create the Athena and S3 clients
and derive the results bucket.  `env_api_key` is the value of
`COSMOS_API_KEY` (`none` when unset).  The second component lists the
external service clients actually created. -/
def cosmosClientInit (api_key env_api_key : Option String)
    (region : String := "us-east-1") (timeout : Int := 300)
    (database : String := "cosmological_production") :
    Except CosmosError CosmosClient × List InitEffect :=
  let key := if truthyOpt api_key then api_key else env_api_key
  if truthyOpt key = false then
    (.error (.authenticationError
      "API key required. Pass api_key parameter or set COSMOS_API_KEY environment variable."),
     [])
  else
    (.ok { api_key := key.getD "", region := region, timeout := timeout,
           database := database,
           results_bucket := "cosmos-query-results-" ++ region },
     [.createAthenaClient region, .createS3Client region])

/-! ## Spec-side rendering template for `build()` -/

/-- The optional clauses of the spec's rendering template
`SELECT <fields> FROM <table> [WHERE ...] [ORDER BY ...] [LIMIT <n>]
[OFFSET <n>]`, in the spec's fixed order, with `none` standing for a
clause with no data (to be omitted). -/
def specClauses (b : QueryBuilder) : List (Option String) :=
  [some ("SELECT " ++ String.intercalate ", " b._select_fields),
   some ("FROM " ++ b._from_table.getD ""),
   (if b._where_conditions = [] then none
    else some ("WHERE " ++ String.intercalate " AND " b._where_conditions)),
   (match b._order_by with
    | none => none
    | some o => if o = "" then none else some ("ORDER BY " ++ o)),
   b._limit.map (fun n => "LIMIT " ++ toString n),
   b._offset.map (fun n => "OFFSET " ++ toString n)]

/-- The spec's rendering: keep the clauses that have data and join them
with single spaces, in the fixed order of `specClauses`. -/
def renderSpec (b : QueryBuilder) : String :=
  String.intercalate " " ((specClauses b).filterMap id)

/-! ## Helper lemmas -/

/-- A scan that finds no occurrence replaces nothing. -/
lemma replaceAllFuel_of_countSubFuel_zero (rep : List Char) :
    ∀ (fuel : Nat) (s pat : List Char), countSubFuel fuel s pat = 0 →
      replaceAllFuel fuel s pat rep = s := by
  intro fuel
  induction fuel with
  | zero => intro s pat _; rfl
  | succ fuel ih =>
    intro s pat h
    cases s with
    | nil => rfl
    | cons c rest =>
      by_cases hm : (!pat.isEmpty && pat.isPrefixOf (c :: rest)) = true
      · rw [countSubFuel, hm] at h
        simp at h
      · rw [countSubFuel] at h
        rw [if_neg hm] at h
        rw [replaceAllFuel, if_neg hm, ih rest pat h]

/-- When the scan finds exactly one occurrence, replacing all occurrences
coincides with replacing the first. -/
lemma replaceAllFuel_of_countSubFuel_one (rep : List Char) :
    ∀ (fuel : Nat) (s pat : List Char), countSubFuel fuel s pat = 1 →
      replaceAllFuel fuel s pat rep = replaceFirstL s pat rep := by
  intro fuel
  induction fuel with
  | zero => intro s pat h; simp [countSubFuel] at h
  | succ fuel ih =>
    intro s pat h
    cases s with
    | nil => simp [countSubFuel] at h
    | cons c rest =>
      by_cases hm : (!pat.isEmpty && pat.isPrefixOf (c :: rest)) = true
      · rw [countSubFuel, if_pos hm] at h
        have h0 : countSubFuel fuel ((c :: rest).drop pat.length) pat = 0 := by omega
        rw [replaceAllFuel, if_pos hm,
          replaceAllFuel_of_countSubFuel_zero rep fuel _ pat h0,
          replaceFirstL, if_pos hm]
      · rw [countSubFuel, if_neg hm] at h
        rw [replaceAllFuel, if_neg hm, replaceFirstL, if_neg hm, ih rest pat h]

/-- `String`-level consequence: a pattern occurring exactly once makes the
unbounded `str.replace` agree with `str.replace(..., 1)`. -/
lemma pyReplaceAll_of_countOccs_one (s pat rep : String)
    (h : countOccs s pat = 1) :
    pyReplaceAll s pat rep = pyReplaceFirst s pat rep := by
  unfold pyReplaceAll pyReplaceFirst replaceAllL
  exact congrArg String.mk
    (replaceAllFuel_of_countSubFuel_one rep.toList s.toList.length s.toList pat.toList h)

/-- Responses that are non-terminal and within the timeout are skipped by
the poll loop, each costing one status check. -/
lemma pollLoop_append_nonterminal (timeout : Int) :
    ∀ (pre tail : List PollResponse),
      (∀ p ∈ pre, isTerminalState p.state = false) →
      (∀ p ∈ pre, p.elapsed ≤ timeout) →
      pollLoop timeout (pre ++ tail) =
        ((pollLoop timeout tail).1, (pollLoop timeout tail).2 + pre.length) := by
  intro pre
  induction pre with
  | nil => intro tail _ _; simp
  | cons p pre ih =>
    intro tail hs ht
    have hp : isTerminalState p.state = false := hs p (List.mem_cons_self p pre)
    have hp1 : ¬ p.state = "SUCCEEDED" := by
      intro h; rw [isTerminalState, h] at hp; simp at hp
    have hp2 : ¬ (p.state = "FAILED" ∨ p.state = "CANCELLED") := by
      rintro (h | h) <;> rw [isTerminalState, h] at hp <;> simp at hp
    have hp3 : ¬ timeout < p.elapsed :=
      not_lt.mpr (ht p (List.mem_cons_self p pre))
    rw [List.cons_append, pollLoop, if_neg hp1, if_neg hp2, if_neg hp3,
      ih tail (fun q hq => hs q (List.mem_cons_of_mem p hq))
        (fun q hq => ht q (List.mem_cons_of_mem p hq))]
    simp [List.length_cons]
    omega

/-- Each nonempty list contributes at least one to the sum of lengths. -/
lemma length_le_sum_lengths {α : Type} :
    ∀ (ps : List (List α)), (∀ p ∈ ps, p ≠ []) →
      ps.length ≤ (ps.map List.length).sum := by
  intro ps
  induction ps with
  | nil => intro _; simp
  | cons p ps ih =>
    intro h
    have hp : p ≠ [] := h p (List.mem_cons_self p ps)
    have h1 : 1 ≤ p.length := List.length_pos.mpr hp
    have := ih (fun q hq => h q (List.mem_cons_of_mem p hq))
    simp only [List.map_cons, List.sum_cons, List.length_cons]
    omega

/-! ## Claim theorems -/

/-- C1: the WHERE branch of `query_galaxy` detects the keyword
case-insensitively (`"WHERE" in query.upper()`) but replaces it
case-sensitively, so a caller who writes `where` in lower case gets the
query back unchanged — no partition predicate is injected, contrary to
the claim.  The second conjunct shows the upper-case input from the
spec's example is rewritten as the claim describes. -/
theorem rewrite_lowercase_where_skips_injection :
    rewriteQuery "g1" "select * from star where mass>10" 0 =
      "select * from star where mass>10" ∧
    rewriteQuery "g1" "SELECT * FROM star WHERE mass>10" 0 =
      "SELECT * FROM star WHERE galaxy_id = 'g1' AND mass>10" := by
  decide

/-- C2 counterexample: when the caller's SQL already contains the text
`galaxy_id = 'g1'`, the unbounded `str.replace` of the time step extends
every occurrence, so two `AND universe_time = 5` clauses appear where
the claim promises exactly one. -/
theorem rewrite_time_clause_duplicated :
    rewriteQuery "g1" "SELECT * FROM star WHERE galaxy_id = 'g1'" 5 =
      "SELECT * FROM star WHERE galaxy_id = 'g1' AND universe_time = 5 AND galaxy_id = 'g1' AND universe_time = 5" ∧
    countOccs (rewriteQuery "g1" "SELECT * FROM star WHERE galaxy_id = 'g1'" 5)
      "AND universe_time = 5" = 2 := by
  decide

/-- C2 amended: if `universe_time > 0` and the query produced by the
partition-predicate insertion step contains exactly one occurrence of
`galaxy_id = '<value>'` (as when the caller's SQL does not itself
contain that text), then exactly one `AND universe_time = <value>`
clause is appended, in place, immediately after that unique predicate
occurrence — i.e. the replace-all of the time step coincides with a
single first-occurrence replacement; if `universe_time` is not positive
the time step leaves the query untouched. -/
theorem rewrite_time_clause_unique (g q : String) (t : Int) :
    (0 < t →
      countOccs (rewriteStep1 g q) ("galaxy_id = '" ++ g ++ "'") = 1 →
      rewriteQuery g q t =
        pyReplaceFirst (rewriteStep1 g q) ("galaxy_id = '" ++ g ++ "'")
          ("galaxy_id = '" ++ g ++ "' AND universe_time = " ++ toString t)) ∧
    (¬ 0 < t → rewriteQuery g q t = rewriteStep1 g q) := by
  constructor
  · intro ht hone
    rw [rewriteQuery, if_pos ht]
    exact pyReplaceAll_of_countOccs_one _ _ _ hone
  · intro ht
    rw [rewriteQuery, if_neg ht]

/-- C2 witness: at a query without a pre-existing partition predicate the
amended statement applies and yields the single adjacent time clause. -/
theorem rewrite_time_clause_unique_witness :
    rewriteQuery "g1" "SELECT * FROM star WHERE mass>10" 5 =
      "SELECT * FROM star WHERE galaxy_id = 'g1' AND universe_time = 5 AND mass>10" :=
  ((rewrite_time_clause_unique "g1" "SELECT * FROM star WHERE mass>10" 5).1
    (by decide) (by decide)).trans (by decide)

/-- C3: the LIMIT/ORDER BY/GROUP BY branch shares the WHERE branch's
flaw: the keyword is detected on `query.upper()` but replaced
case-sensitively, and the loop `break`s after the attempted replacement,
so a query with a lower-case `limit` and no WHERE is returned unchanged —
no predicate is inserted before the keyword and none is appended at the
end.  The remaining conjuncts show the upper-case behaviour the claim
describes: insertion before the keyword, keyword priority (`LIMIT` is
chosen over a textually earlier `ORDER BY`), and the fallback append. -/
theorem rewrite_lowercase_keyword_skips_injection :
    rewriteQuery "g1" "select * from star limit 10" 0 =
      "select * from star limit 10" ∧
    rewriteQuery "g1" "SELECT * FROM star LIMIT 10" 0 =
      "SELECT * FROM star WHERE galaxy_id = 'g1' LIMIT 10" ∧
    rewriteQuery "g1" "SELECT * FROM s ORDER BY m LIMIT 5" 0 =
      "SELECT * FROM s ORDER BY m WHERE galaxy_id = 'g1' LIMIT 5" ∧
    rewriteQuery "g1" "SELECT * FROM star" 0 =
      "SELECT * FROM star WHERE galaxy_id = 'g1'" := by
  decide

/-- C4 counterexample: the loop checks the remote state before the
timeout bound, so a `SUCCEEDED` response polled after the deadline
(elapsed 15 with timeout 10, never terminal before the deadline) leads
to a fetch, not to the timeout `QueryError` the claim demands
"regardless of the current remote state". -/
theorem poll_success_after_deadline_fetches :
    pollLoop 10 [⟨"RUNNING", none, 5⟩, ⟨"SUCCEEDED", none, 15⟩] =
      (.fetch, 2) := by
  decide

/-- C4 amended: if every response polled within the timeout is
non-terminal and the first response polled past the deadline is also
non-terminal, the loop raises the timeout-flavoured `QueryError` at that
check and issues no further status checks (exactly `pre.length + 1`
checks happen, whatever responses would have followed); a terminal state
observed at a check is honoured even past the deadline, because the
state check precedes the timeout check. -/
theorem poll_timeout_stops (timeout : Int) (pre rest : List PollResponse)
    (r : PollResponse)
    (hs : ∀ p ∈ pre, isTerminalState p.state = false)
    (ht : ∀ p ∈ pre, p.elapsed ≤ timeout)
    (hr1 : isTerminalState r.state = false)
    (hr2 : timeout < r.elapsed) :
    pollLoop timeout (pre ++ r :: rest) =
      (.raised (.queryError ("Query timeout after " ++ toString timeout ++ "s")),
       pre.length + 1) := by
  have h1 : ¬ r.state = "SUCCEEDED" := by
    intro h; rw [isTerminalState, h] at hr1; simp at hr1
  have h2 : ¬ (r.state = "FAILED" ∨ r.state = "CANCELLED") := by
    rintro (h | h) <;> rw [isTerminalState, h] at hr1 <;> simp at hr1
  rw [pollLoop_append_nonterminal timeout pre (r :: rest) hs ht,
    pollLoop, if_neg h1, if_neg h2, if_pos hr2]
  simp [Nat.add_comm]

/-- C4 witness: with timeout 10, a within-deadline `RUNNING` response
followed by an over-deadline `RUNNING` response raises the timeout error
after exactly two checks; the queued `SUCCEEDED` response is never
polled. -/
theorem poll_timeout_stops_witness :
    pollLoop 10 [⟨"RUNNING", none, 5⟩, ⟨"RUNNING", none, 11⟩,
        ⟨"SUCCEEDED", none, 12⟩] =
      (.raised (.queryError "Query timeout after 10s"), 2) :=
  (poll_timeout_stops 10 [⟨"RUNNING", none, 5⟩] [⟨"SUCCEEDED", none, 12⟩]
    ⟨"RUNNING", none, 11⟩ (by decide) (by decide) (by decide) (by decide)).trans
    (by decide)

/-- C5: after any run of non-terminal, within-deadline responses, a
`SUCCEEDED` response makes the loop break to the fetch phase, while a
`FAILED` or `CANCELLED` response raises a `QueryError` carrying the
service-reported reason (or `"Unknown error"` when none is given); in
both cases exactly `pre.length + 1` status checks are issued, so the
terminal state is never re-polled or retried. -/
theorem poll_terminal_state_decides (timeout : Int)
    (pre rest : List PollResponse) (r : PollResponse)
    (hs : ∀ p ∈ pre, isTerminalState p.state = false)
    (ht : ∀ p ∈ pre, p.elapsed ≤ timeout) :
    (r.state = "SUCCEEDED" →
      pollLoop timeout (pre ++ r :: rest) = (.fetch, pre.length + 1)) ∧
    ((r.state = "FAILED" ∨ r.state = "CANCELLED") →
      pollLoop timeout (pre ++ r :: rest) =
        (.raised (.queryError ("Query failed: " ++ r.reason.getD "Unknown error")),
         pre.length + 1)) := by
  rw [pollLoop_append_nonterminal timeout pre (r :: rest) hs ht]
  constructor
  · intro h
    rw [pollLoop, if_pos h]
    simp [Nat.add_comm]
  · intro h
    have h1 : ¬ r.state = "SUCCEEDED" := by
      rcases h with h | h <;> rw [h] <;> decide
    rw [pollLoop, if_neg h1, if_pos h]
    simp [Nat.add_comm]

/-- C5 witness: a `QUEUED` response followed by a `FAILED` response with
reason `"boom"` raises `Query failed: boom` after exactly two checks,
leaving the rest of the stream unpolled. -/
theorem poll_terminal_state_decides_witness :
    pollLoop 10 [⟨"QUEUED", none, 1⟩, ⟨"FAILED", some "boom", 3⟩,
        ⟨"SUCCEEDED", none, 4⟩] =
      (.raised (.queryError "Query failed: boom"), 2) :=
  (((poll_terminal_state_decides 10 [⟨"QUEUED", none, 1⟩]
      [⟨"SUCCEEDED", none, 4⟩] ⟨"FAILED", some "boom", 3⟩
      (by decide) (by decide)).2) (Or.inl rfl)).trans (by decide)

/-- C6: the fetch loop drops the first row of every page
(`Rows[1:]`), decodes each remaining cell to its string-or-null
`VarCharValue`, and concatenates the pages in remote order; when every
page is nonempty the final row count is the total number of rows minus
one header per page. -/
theorem fetch_skips_one_header_per_page
    (pages : List (List (List AthenaDatum)))
    (h : ∀ p ∈ pages, p ≠ []) :
    fetchResults pages = (pages.map (fun p => (p.drop 1).map decodeRow)).flatten ∧
    (fetchResults pages).length = (pages.map List.length).sum - pages.length := by
  induction pages with
  | nil => exact ⟨rfl, rfl⟩
  | cons p ps ih =>
    have hp : p ≠ [] := h p (List.mem_cons_self p ps)
    have hps : ∀ q ∈ ps, q ≠ [] := fun q hq => h q (List.mem_cons_of_mem p hq)
    obtain ⟨ih1, ih2⟩ := ih hps
    constructor
    · rw [fetchResults, List.map_cons, List.flatten_cons, ih1]
    · have h1 : 1 ≤ p.length := List.length_pos.mpr hp
      have h2 : ps.length ≤ (ps.map List.length).sum := length_le_sum_lengths ps hps
      rw [fetchResults, List.length_append, List.length_map, List.length_drop, ih2]
      simp only [List.map_cons, List.sum_cons, List.length_cons]
      omega

/-- C6 witness: two pages of one header plus a data row each; both
headers are dropped, nulls decode to `none`, order is preserved, and the
count is total rows minus one per page. -/
theorem fetch_skips_one_header_per_page_witness :
    fetchResults [[[⟨some "colA"⟩], [⟨some "1"⟩], [⟨none⟩]],
        [[⟨some "colA"⟩], [⟨some "3"⟩]]] =
      [[some "1"], [none], [some "3"]] ∧
    (fetchResults [[[⟨some "colA"⟩], [⟨some "1"⟩], [⟨none⟩]],
        [[⟨some "colA"⟩], [⟨some "3"⟩]]]).length = 3 := by
  have h := fetch_skips_one_header_per_page
    [[[⟨some "colA"⟩], [⟨some "1"⟩], [⟨none⟩]],
     [[⟨some "colA"⟩], [⟨some "3"⟩]]] (by decide)
  exact ⟨h.1.trans (by decide), h.2.trans (by decide)⟩

/-- C7: whenever at least one field is selected and a (truthy) table is
set, `build()` renders exactly the spec's template — the data-carrying
clauses in the fixed order SELECT, FROM, WHERE, ORDER BY, LIMIT, OFFSET,
joined by single spaces — and on the two builder states of the claim it
produces exactly the two quoted strings (`order_by` defaulting the
direction to `ASC`). -/
theorem builder_build_renders (b : QueryBuilder)
    (h1 : b._select_fields ≠ []) (h2 : b._from_table.getD "" ≠ "") :
    b.build = .ok (renderSpec b) ∧
    (((((((QueryBuilder.init.select ["a"]).from_table "t").where_ "x>1").where_
        "y<2").order_by "z").limit 5).offset 2).build =
      .ok "SELECT a FROM t WHERE x>1 AND y<2 ORDER BY z ASC LIMIT 5 OFFSET 2" ∧
    ((QueryBuilder.init.select ["a", "b"]).from_table "t").build =
      .ok "SELECT a, b FROM t" := by
  refine ⟨?_, rfl, rfl⟩
  obtain ⟨fs, ft, wc, ob, lim, off⟩ := b
  simp only [QueryBuilder.build, renderSpec, specClauses] at h1 h2 ⊢
  rcases ob with _ | o
  · rcases wc with _ | ⟨c, cs⟩ <;> rcases lim with _ | n <;> rcases off with _ | m <;>
      simp [h1, h2, List.filterMap_cons]
  · by_cases ho : o = "" <;>
      rcases wc with _ | ⟨c, cs⟩ <;> rcases lim with _ | n <;> rcases off with _ | m <;>
        simp [h1, h2, ho, List.filterMap_cons]

/-- C7 witness: the chained builder of the claim's first example,
rendered through the theorem. -/
theorem builder_build_renders_witness :
    (((((((QueryBuilder.init.select ["a"]).from_table "t").where_ "x>1").where_
        "y<2").order_by "z").limit 5).offset 2).build =
      .ok "SELECT a FROM t WHERE x>1 AND y<2 ORDER BY z ASC LIMIT 5 OFFSET 2" :=
  (builder_build_renders
    (((((((QueryBuilder.init.select ["a"]).from_table "t").where_ "x>1").where_
        "y<2").order_by "z").limit 5).offset 2)
    (by decide) (by decide)).1.trans rfl

/-- C8: `build()` fails (with a `ValueError`, modelled as `Except.error`)
exactly when no fields were selected or no table was set — "set" in the
Python-truthiness sense under which an empty table string counts as
unset; every mutator of the builder is embedded as a total state
transformer (the Python mutators only append or assign and contain no
raise), so validation can only ever surface at `build()` time. -/
theorem builder_build_error_iff (b : QueryBuilder) :
    (∃ msg, b.build = .error msg) ↔
      (b._select_fields = [] ∨ b._from_table.getD "" = "") := by
  unfold QueryBuilder.build
  by_cases hf : b._select_fields = []
  · simp [hf]
  · by_cases ht : b._from_table.getD "" = ""
    · simp [hf, ht]
    · simp [hf, ht]

/-- C9: `build()` reads but never writes the builder state (the method
body of query.py 111-148 assigns no attribute), so the state after a
successful call is unchanged, a second call returns the identical
string, and `__str__` returns exactly the result of `build()`. -/
theorem builder_build_idempotent (b : QueryBuilder) (s : String)
    (h : b.buildS.1 = .ok s) :
    b.buildS.2 = b ∧ (b.buildS.2).buildS.1 = .ok s ∧ b.str = b.buildS.1 :=
  ⟨rfl, h, rfl⟩

/-- C9 witness: the two-field builder state, built twice with identical
results and an agreeing `__str__`. -/
theorem builder_build_idempotent_witness :
    ((QueryBuilder.init.select ["a", "b"]).from_table "t").buildS.2 =
      (QueryBuilder.init.select ["a", "b"]).from_table "t" ∧
    (((QueryBuilder.init.select ["a", "b"]).from_table "t").buildS.2).buildS.1 =
      .ok "SELECT a, b FROM t" ∧
    ((QueryBuilder.init.select ["a", "b"]).from_table "t").str =
      ((QueryBuilder.init.select ["a", "b"]).from_table "t").buildS.1 :=
  builder_build_idempotent ((QueryBuilder.init.select ["a", "b"]).from_table "t")
    "SELECT a, b FROM t" rfl

/-- C10: constructing the client with a `None` or empty api key while the
`COSMOS_API_KEY` environment value is also absent or empty fails with the
`AuthenticationError` of client.py 46-48, and the effect list is empty:
the Athena and S3 service clients are never created, so no remote calls
can be attempted. -/
theorem client_init_missing_key_no_clients (api_key env_api_key : Option String)
    (region : String) (timeout : Int) (database : String)
    (h1 : api_key = none ∨ api_key = some "")
    (h2 : env_api_key = none ∨ env_api_key = some "") :
    cosmosClientInit api_key env_api_key region timeout database =
      (.error (.authenticationError
        "API key required. Pass api_key parameter or set COSMOS_API_KEY environment variable."),
       []) := by
  rcases h1 with h1 | h1 <;> rcases h2 with h2 | h2 <;> subst h1 <;> subst h2 <;> rfl

/-- C10 witness: no argument and no environment value. -/
theorem client_init_missing_key_no_clients_witness :
    cosmosClientInit none none "us-east-1" 300 "cosmological_production" =
      (.error (.authenticationError
        "API key required. Pass api_key parameter or set COSMOS_API_KEY environment variable."),
       []) :=
  client_init_missing_key_no_clients none none "us-east-1" 300
    "cosmological_production" (Or.inl rfl) (Or.inl rfl)

end Cosmos
